import Mathlib

/-!
# Verification of `node_to_staad.py` (AutoSTAAD)

A shallow embedding of the core pipeline of `node_to_staad.py`:
`read_node_data` (loader), `validate_node_data` (validator) and
`generate_staad_file` (emitter), together with theorems settling the
specification claims about them.

Modelling conventions:
* A pandas cell is a `Cell`: `na` (NaN / missing), `num q` (a numeric value,
  modelled as a rational — the concrete inputs of interest are exactly
  representable), or `txt s` (a string value, as found in an object-dtype
  column).
* A `DataFrame` is its column-name list plus, for each row, the values of the
  four required columns (`node_id`, `x`, `y`, `z`); the code never reads any
  other column.
* File output is modelled by accumulating the bytes written into a `String`;
  the `content` field of an emit result is the text present at the
  destination after the call (including the partially written text left
  behind when an exception aborts the write loop inside the `with` block,
  which flushes and closes the file).
* `pd.to_numeric(-, errors := coerce)` applied to a single value is
  `toNumeric`; `pd.to_numeric` applied to a column maps it over the column.
  String parsing is modelled for plain decimal literals (optional sign,
  digits, optional fractional part), which covers every value the claims
  exercise.
* `df.sort_values` with a homogeneous key column sorts numerically on a
  numeric column and lexicographically on a string column, with NaN keys
  last; this is `insertionSort` by `cellLE`.  (On a mixed
  numeric/string column pandas raises; all sorting theorems below therefore
  carry a homogeneity hypothesis.)
-/

set_option maxRecDepth 100000

/-! ## Decimal rendering (Python's `str` of `int`, and `{v:.6f}` formatting) -/

/-- Decimal digits of `n`, most significant first, with explicit fuel
(`fuel ≥ n` suffices). Structural recursion keeps it kernel-computable. -/
def natChars : Nat → Nat → List Char
  | 0, _ => []
  | fuel + 1, n => if n = 0 then [] else natChars fuel (n / 10) ++ [Nat.digitChar (n % 10)]

/-- Decimal representation of a natural number (as Python prints it). -/
def natRepr (n : Nat) : String :=
  ⟨if n = 0 then ['0'] else natChars n n⟩

/-- Decimal representation of an integer (as Python prints it). -/
def intRepr (i : Int) : String :=
  (if i < 0 then "-" else "") ++ natRepr i.natAbs

/-- The fractional part `n < 10^6`, zero-padded on the left to 6 digits. -/
def pad6 (n : Nat) : String :=
  let ds := if n = 0 then ['0'] else natChars n n
  ⟨List.replicate (6 - ds.length) '0' ++ ds⟩

/-- `⌊q·10^6 + 1/2⌋`: the scaled integer behind Python's `f"{q:.6f}"`.
Computed on `q.num`/`q.den` directly so that it kernel-evaluates.  (CPython
rounds the binary double half-to-even; on the exactly representable values
the claims exercise, no tie arises and the two agree.) -/
def scaled6 (q : ℚ) : Int :=
  Int.ediv (q.num * 2000000 + (q.den : Int)) (2 * (q.den : Int))

/-- Python's `f"{q:.6f}"`: fixed-point, exactly six digits after the point,
never scientific. -/
def fmt6 (q : ℚ) : String :=
  let s := scaled6 q
  (if s < 0 then "-" else "") ++ natRepr (s.natAbs / 1000000) ++ "." ++ pad6 (s.natAbs % 1000000)

/-! ## Cells and numeric coercion -/

/-- One pandas cell of the four required columns. -/
inductive Cell where
  | na : Cell
  | num (q : ℚ) : Cell
  | txt (s : String) : Cell
deriving DecidableEq

/-- Is this cell NaN / missing? -/
def isNa : Cell → Bool
  | .na => true
  | _ => false

/-- Digit-string value, `[c₁, …, cₖ] ↦ Σ cᵢ·10^(k-i)` (caller checks digits). -/
def valOf (cs : List Char) : Nat :=
  cs.foldl (fun a c => a * 10 + (c.toNat - 48)) 0

/-- All characters are ASCII digits. -/
def digitsOk (cs : List Char) : Bool := cs.all (·.isDigit)

/-- Parse an unsigned decimal literal (digits, optional `.`, digits), scaled
by `sign`.  Models the numeric parsing done by `pd.to_numeric` / `float` on
plain decimal literals. -/
def parseDec (sign : Int) (cs : List Char) : Option ℚ :=
  let ip := cs.takeWhile (· ≠ '.')
  match cs.dropWhile (· ≠ '.') with
  | [] =>
      if ip ≠ [] ∧ digitsOk ip then some (mkRat (sign * valOf ip) 1) else none
  | _ :: fp =>
      if (ip ≠ [] ∨ fp ≠ []) ∧ digitsOk ip ∧ digitsOk fp then
        some (mkRat (sign * (valOf ip * 10 ^ fp.length + valOf fp)) (10 ^ fp.length))
      else none

/-- Parse a (possibly signed) decimal literal. -/
def parseNum (s : String) : Option ℚ :=
  match s.data with
  | '+' :: cs => parseDec 1 cs
  | '-' :: cs => parseDec (-1) cs
  | cs => parseDec 1 cs

/-- Python's `int(str)`: optional sign followed by digits only. -/
def parseIntLit (s : String) : Option Int :=
  let core : List Char → Option Nat := fun cs =>
    if cs ≠ [] ∧ digitsOk cs then some (valOf cs) else none
  match s.data with
  | '+' :: cs => (core cs).map (fun n => (n : Int))
  | '-' :: cs => (core cs).map (fun n => -(n : Int))
  | cs => (core cs).map (fun n => (n : Int))

/-- `pd.to_numeric(value, errors := coerce)` on one cell: numeric values pass
through, parseable strings become their numeric value, everything else
(including NaN) becomes NaN (`none`). -/
def toNumeric : Cell → Option ℚ
  | .na => none
  | .num q => some q
  | .txt s => parseNum s

/-- Python's `int(value)` on one cell: truncates a numeric value toward zero,
parses an integer-literal string, raises (`none`) on NaN or a non-integer
string. -/
def pyIntCell : Cell → Option Int
  | .na => none
  | .num q => some (q.num.tdiv (q.den : Int))
  | .txt s => parseIntLit s

/-- Lexicographic (code-point) order on character lists, Python's `str` order. -/
def charsLE : List Char → List Char → Bool
  | [], _ => true
  | _ :: _, [] => false
  | a :: as, b :: bs => if a < b then true else if b < a then false else charsLE as bs

/-- The key order used by `df.sort_values`: numeric on numbers, lexicographic
on strings, NaN last.  (pandas raises on a mixed numeric/string column; the
mixed cases of this function are never relied upon — every sorting theorem
assumes a homogeneous key column.) -/
def cellLE : Cell → Cell → Bool
  | .num p, .num q => decide (p ≤ q)
  | .num _, .txt _ => true
  | .num _, .na => true
  | .txt _, .num _ => false
  | .txt s, .txt t => charsLE s.data t.data
  | .txt _, .na => true
  | .na, .na => true
  | .na, _ => false

/-- Strict version of `cellLE`. -/
def cellLT (a b : Cell) : Bool := cellLE a b && !cellLE b a

/-! ## Rows and DataFrames -/

/-- One input row, restricted to the four required columns (the code reads no
other column). -/
structure Row where
  node_id : Cell
  x : Cell
  y : Cell
  z : Cell
deriving DecidableEq

/-- A loaded table: its column names plus the required-column values of each
row (in source-file order). -/
structure DataFrame where
  columns : List String
  rows : List Row
deriving DecidableEq

/-- `required_columns` from `validate_node_data` (line 78). -/
def required_columns : List String := ["node_id", "x", "y", "z"]

/-- `df.dropna(subset=required_columns)` keeps a row iff no required field is
NaN. -/
def rowComplete (r : Row) : Bool :=
  !(isNa r.node_id || isNa r.x || isNa r.y || isNa r.z)

/-! ## `validate_node_data` (lines 54–157) -/

/-- The structured content of the validation transcript.  `missingColumns`
is the immediate-return branch of check 1 (lines 81–85): the function
returns `False` before any later check runs, so no later-check data exists.
`report` carries, in order, the data printed by checks 2–5 and the returned
boolean. -/
inductive ValidationResult where
  | missingColumns (missing : List String) (available : List String)
  | report (missingCount : Nat) (dupIdRows : List Row) (dupCoordRows : List Row)
      (nonNumeric : List (String × Nat × List Cell)) (passed : Bool)
deriving DecidableEq

/-- The boolean `validate_node_data` returns. -/
def passedOf : ValidationResult → Bool
  | .missingColumns _ _ => false
  | .report _ _ _ _ p => p

/-- `df_clean` (line 91): the clean subset. -/
def cleanRows (df : DataFrame) : List Row := df.rows.filter rowComplete

/-- `df_clean[df_clean.duplicated(subset=[node_id], keep=False)]` (line 102):
every row whose `node_id` value occurs more than once. -/
def dupIdCheck (rs : List Row) : List Row :=
  rs.filter (fun r => decide (2 ≤ (rs.map Row.node_id).count r.node_id))

/-- The raw stored `(x, y, z)` triple of a row. -/
def coordTriple (r : Row) : Cell × Cell × Cell := (r.x, r.y, r.z)

/-- `df_clean[df_clean.duplicated(subset=[x, y, z], keep=False)]` (line 114):
every row whose raw `(x, y, z)` value-triple occurs more than once.  The
comparison is on the stored values themselves (e.g. string equality in an
object column), exactly as `DataFrame.duplicated` compares. -/
def dupCoordCheck (rs : List Row) : List Row :=
  rs.filter (fun r => decide (2 ≤ (rs.map coordTriple).count (coordTriple r)))

/-- The value of column `c` in row `r` (only the four required columns are
ever read). -/
def colCell (c : String) (r : Row) : Cell :=
  if c = "x" then r.x else if c = "y" then r.y else if c = "z" then r.z else r.node_id

/-- Check 5 (lines 125–137): per column `x`, `y`, `z`, the rows of the clean
subset whose value fails numeric coercion; an entry `(column, count,
node_ids)` is recorded only when the count is nonzero. -/
def nonNumericCheck (rs : List Row) : List (String × Nat × List Cell) :=
  (["x", "y", "z"].map (fun c =>
      let bad := rs.filter (fun r => (toNumeric (colCell c r)).isNone)
      (c, bad.length, bad.map Row.node_id))).filter
    (fun e => decide (e.2.1 ≠ 0))

/-- `validate_node_data` (lines 54–157).  Check 1 returns immediately when a
required column is absent (line 85); otherwise checks 2–5 all run on the
clean subset and the returned boolean is the conjunction of their
outcomes. -/
def validate_node_data (df : DataFrame) : ValidationResult :=
  let missing := required_columns.filter (fun c => decide (c ∉ df.columns))
  if missing ≠ [] then .missingColumns missing df.columns
  else
    let clean := cleanRows df
    let missingCount := df.rows.length - clean.length
    let dIds := dupIdCheck clean
    let dCoords := dupCoordCheck clean
    let nn := nonNumericCheck clean
    .report missingCount dIds dCoords nn
      (decide (missingCount = 0) && dIds.isEmpty && dCoords.isEmpty && nn.isEmpty)

/-! ## `generate_staad_file` (lines 160–214) -/

/-- The fixed header written by lines 186–194 (five header lines, a blank
line, and the `JOINT COORDINATES` section opener). -/
def headerString : String :=
  "STAAD SPACE\nSTART JOB INFORMATION\nENGINEER DATE 01-Jan-2025\nEND JOB INFORMATION\nUNIT METER KN\n\nJOINT COORDINATES\n"

/-- One application of `pd.to_numeric(col, errors=coerce)` to a cell of the
mutated frame (lines 173–175): the coerced value, or NaN. -/
def coerceCell (c : Cell) : Cell :=
  match toNumeric c with
  | some q => .num q
  | none => .na

/-- Lines 173–175: the in-place coercion of columns `x`, `y`, `z` (this
MUTATES the caller's DataFrame in the Python code). -/
def coerceDF (df : DataFrame) : DataFrame :=
  ⟨df.columns, df.rows.map (fun r => ⟨r.node_id, coerceCell r.x, coerceCell r.y, coerceCell r.z⟩)⟩

/-- Line 178: `df.dropna(subset=[x, y, z])` after the coercion (note:
`node_id` is *not* in the subset). -/
def emitClean (df : DataFrame) : List Row :=
  (coerceDF df).rows.filter (fun r => !(isNa r.x || isNa r.y || isNa r.z))

/-- The `sort_values(node_id)` key order, lifted to rows. -/
def rowLE (a b : Row) : Prop := cellLE a.node_id b.node_id = true

instance : DecidableRel rowLE := fun _ _ => instDecidableEqBool _ _

/-- Line 181: `df_sorted = df_clean.sort_values(node_id)`. -/
def sortedRows (df : DataFrame) : List Row :=
  List.insertionSort rowLE (emitClean df)

/-- The numeric value of a coerced coordinate cell (every cell this is
applied to is `num _`, a fact proved where used; `float(value)` of a numeric
value never raises). -/
def cellValQ : Cell → ℚ
  | .num q => q
  | _ => 0

/-- Line 204: the joint line `f"{node_id} {x:.6f} {y:.6f} {z:.6f}\n"`. -/
def lineOf (i : Int) (r : Row) : String :=
  intRepr i ++ " " ++ fmt6 (cellValQ r.x) ++ " " ++ fmt6 (cellValQ r.y) ++ " " ++ fmt6 (cellValQ r.z) ++ "\n"

/-- The joint line of a row, when `int(row[node_id])` (line 198) succeeds. -/
def lineOfRow (r : Row) : Option String :=
  (pyIntCell r.node_id).map (fun i => lineOf i r)

/-- The write loop (lines 197–204): text written so far, and whether the loop
completed.  When `int(row[node_id])` raises, the loop aborts: nothing of the
failing row (or any later row) is written. -/
def writeJoints : List Row → String × Bool
  | [] => ("", true)
  | r :: rs =>
      match pyIntCell r.node_id with
      | none => ("", false)
      | some i =>
          let rest := writeJoints rs
          (lineOf i r ++ rest.1, rest.2)

/-- Concatenation of the joint lines of rows whose `node_id` converts. -/
def jointBody (rs : List Row) : String :=
  (rs.filterMap lineOfRow).foldr (· ++ ·) ""

/-- The outcome of one `generate_staad_file` call: the returned boolean, the
text at the destination file afterwards, and the row count printed on
success (line 209). -/
structure EmitResult where
  success : Bool
  content : String
  writtenCount : Option Nat
deriving DecidableEq

/-- `generate_staad_file` (lines 160–214).  On an exception inside the write
loop the `with` block closes (and flushes) the file, the `except` clause
catches, and the function returns `False`: the destination keeps the
partially written text. -/
def generate_staad_file (df : DataFrame) (_output_filename : String) : EmitResult :=
  let sorted := sortedRows df
  let body := writeJoints sorted
  if body.2 then
    ⟨true, headerString ++ body.1 ++ "END JOINT COORDINATES\n", some sorted.length⟩
  else
    ⟨false, headerString ++ body.1, none⟩

/-! ## `read_node_data` (lines 16–51) -/

/-- The loader's outcomes, distinguished by the message branch the code
takes (the Python function prints a distinct message per category and
returns `None` on every failure). -/
inductive ReadOutcome where
  | notFound : ReadOutcome
  | unsupported : ReadOutcome
  | parseError (msg : String) : ReadOutcome
  | ok (df : DataFrame) : ReadOutcome
deriving DecidableEq

/-- The environment of one `read_node_data` call: whether the path resolves,
and what the two pandas parsers would produce for it (a parser either yields
the complete table or raises — pandas never returns partial data from a
failed parse). -/
structure SourceFile where
  found : Bool
  excel : Except String DataFrame
  csv : Except String DataFrame

/-- Python's `str.endswith`. -/
def pyEndsWith (s suf : String) : Bool := suf.data.isSuffixOf s.data

/-- `read_node_data` (lines 16–51): existence check first (line 28), then the
extension dispatch (lines 33–44); any parser exception is caught by the
`except` clause (lines 49–51). -/
def read_node_data (fs : SourceFile) (file_path : String) : ReadOutcome :=
  if !fs.found then .notFound
  else if pyEndsWith file_path ".xlsx" || pyEndsWith file_path ".xls" then
    match fs.excel with
    | .ok df => .ok df
    | .error e => .parseError e
  else if pyEndsWith file_path ".csv" then
    match fs.csv with
    | .ok df => .ok df
    | .error e => .parseError e
  else .unsupported

/-- A path whose extension belongs to one of the two supported families. -/
def supportedExt (p : String) : Bool :=
  pyEndsWith p ".xlsx" || pyEndsWith p ".xls" || pyEndsWith p ".csv"


/-! ## Formatting lemmas -/

theorem natChars_length_le (fuel : Nat) :
    ∀ n k : Nat, n < 10 ^ k → (natChars fuel n).length ≤ k := by
  induction fuel with
  | zero => intro n k _; simp [natChars]
  | succ fuel ih =>
      intro n k hk
      by_cases hn : n = 0
      · simp [natChars, hn]
      · have hk0 : k ≠ 0 := by
          rintro rfl
          simp only [pow_zero, Nat.lt_one_iff] at hk
          exact hn hk
        obtain ⟨k', rfl⟩ := Nat.exists_eq_succ_of_ne_zero hk0
        have hdiv : n / 10 < 10 ^ k' := by
          rw [Nat.div_lt_iff_lt_mul (by norm_num)]
          calc n < 10 ^ (k' + 1) := hk
            _ = 10 ^ k' * 10 := by ring
        have := ih (n / 10) k' hdiv
        simp only [natChars, hn, if_false, List.length_append, List.length_cons,
          List.length_nil]
        omega

theorem digitChar_isDigit {m : Nat} (h : m < 10) : (Nat.digitChar m).isDigit = true := by
  interval_cases m <;> decide

theorem natChars_all_digits (fuel : Nat) :
    ∀ n : Nat, ∀ c ∈ natChars fuel n, c.isDigit = true := by
  induction fuel with
  | zero => intro n c hc; simp [natChars] at hc
  | succ fuel ih =>
      intro n c hc
      by_cases hn : n = 0
      · simp [natChars, hn] at hc
      · simp only [natChars, hn, if_false, List.mem_append, List.mem_singleton] at hc
        rcases hc with hc | rfl
        · exact ih _ c hc
        · exact digitChar_isDigit (Nat.mod_lt _ (by norm_num))

theorem natRepr_all_digits (n : Nat) : ∀ c ∈ (natRepr n).data, c.isDigit = true := by
  intro c hc
  by_cases hn : n = 0
  · simp [natRepr, hn] at hc; simp [hc]
  · simp only [natRepr, hn, if_false] at hc
    exact natChars_all_digits n n c hc

theorem pad6_length {n : Nat} (h : n < 1000000) : (pad6 n).length = 6 := by
  have hle : (if n = 0 then ['0'] else natChars n n).length ≤ 6 := by
    by_cases hn : n = 0
    · simp [hn]
    · simpa [hn] using natChars_length_le n n 6 (by norm_num [h])
  simp only [pad6, String.length]
  simp only [List.length_append, List.length_replicate]
  omega

theorem pad6_all_digits (n : Nat) : ∀ c ∈ (pad6 n).data, c.isDigit = true := by
  intro c hc
  simp only [pad6, List.mem_append, List.mem_replicate] at hc
  rcases hc with ⟨-, rfl⟩ | hc
  · decide
  · by_cases hn : n = 0
    · simp [hn] at hc; simp [hc]
    · simp only [hn, if_false] at hc
      exact natChars_all_digits n n c hc

/-- The shape of every formatted coordinate: some string, a decimal point,
then exactly six decimal digits; and every character of the result is a
digit, the point, or a minus sign (in particular never an `e`). -/
theorem fmt6_shape (q : ℚ) :
    ∃ s t : String, fmt6 q = s ++ "." ++ t ∧ t.length = 6 ∧
      (∀ c ∈ t.data, c.isDigit = true) ∧
      (∀ c ∈ (fmt6 q).data, c.isDigit = true ∨ c = '.' ∨ c = '-') := by
  refine ⟨(if scaled6 q < 0 then "-" else "") ++ natRepr ((scaled6 q).natAbs / 1000000),
    pad6 ((scaled6 q).natAbs % 1000000), by simp [fmt6], ?_, ?_, ?_⟩
  · exact pad6_length (Nat.mod_lt _ (by norm_num))
  · exact pad6_all_digits _
  · intro c hc
    simp only [fmt6, String.data_append] at hc
    rcases List.mem_append.mp hc with hc | hc
    · rcases List.mem_append.mp hc with hc | hc
      · rcases List.mem_append.mp hc with hc | hc
        · split at hc
          · simp at hc; right; right; exact hc
          · simp at hc
        · left; exact natRepr_all_digits _ c hc
      · simp at hc; right; left; exact hc
    · left; exact pad6_all_digits _ c hc

/-! ## Order lemmas for the sort key -/

theorem charsLE_total : ∀ a b : List Char, charsLE a b = true ∨ charsLE b a = true := by
  intro a
  induction a with
  | nil => intro b; left; simp [charsLE]
  | cons c cs ih =>
      intro b
      cases b with
      | nil => right; simp [charsLE]
      | cons d ds =>
          rcases lt_trichotomy c d with h | h | h
          · left; simp [charsLE, h]
          · subst h
            rcases ih ds with h2 | h2
            · left; simpa [charsLE] using h2
            · right; simpa [charsLE] using h2
          · right; simp [charsLE, h]

theorem charsLE_trans :
    ∀ a b c : List Char, charsLE a b = true → charsLE b c = true → charsLE a c = true := by
  intro a
  induction a with
  | nil => intro b c _ _; simp [charsLE]
  | cons x xs ih =>
      intro b c hab hbc
      cases b with
      | nil => simp [charsLE] at hab
      | cons y ys =>
          cases c with
          | nil => simp [charsLE] at hbc
          | cons z zs =>
              simp only [charsLE] at hab hbc ⊢
              rcases lt_trichotomy x y with hxy | hxy | hxy
              · rcases lt_trichotomy y z with hyz | hyz | hyz
                · simp [lt_trans hxy hyz]
                · subst hyz; simp [hxy]
                · simp [hyz, not_lt_of_lt hyz] at hbc
              · subst hxy
                rcases lt_trichotomy x z with hxz | hxz | hxz
                · simp [hxz]
                · subst hxz
                  simp only [lt_irrefl, if_false] at hab hbc ⊢
                  exact ih _ _ hab hbc
                · simp [hxz, not_lt_of_lt hxz] at hbc
              · simp [hxy, not_lt_of_lt hxy] at hab

theorem cellLE_total : ∀ a b : Cell, cellLE a b = true ∨ cellLE b a = true := by
  intro a b
  cases a <;> cases b <;> simp [cellLE]
  · exact le_total _ _
  · exact charsLE_total _ _

theorem cellLE_trans :
    ∀ a b c : Cell, cellLE a b = true → cellLE b c = true → cellLE a c = true := by
  intro a b c hab hbc
  cases a <;> cases b <;> cases c <;> simp [cellLE] at hab hbc ⊢
  · exact le_trans hab hbc
  · exact charsLE_trans _ _ _ hab hbc

instance : IsTotal Row rowLE :=
  ⟨fun a b => cellLE_total a.node_id b.node_id⟩

instance : IsTrans Row rowLE :=
  ⟨fun _ _ _ hab hbc => cellLE_trans _ _ _ hab hbc⟩

/-! ## Coercion and write-loop lemmas -/

/-- Lines 173–175, restricted to one row. -/
def coerceRow (r : Row) : Row :=
  ⟨r.node_id, coerceCell r.x, coerceCell r.y, coerceCell r.z⟩

/-- A row all of whose coordinates coerce to numbers — exactly the rows the
emitter keeps. -/
def survivingB (r : Row) : Bool :=
  (toNumeric r.x).isSome && (toNumeric r.y).isSome && (toNumeric r.z).isSome

theorem isNa_coerceCell (c : Cell) : isNa (coerceCell c) = !(toNumeric c).isSome := by
  cases h : toNumeric c <;> simp [coerceCell, h, isNa]

theorem toNumeric_coerceCell (c : Cell) : toNumeric (coerceCell c) = toNumeric c := by
  unfold coerceCell
  cases h : toNumeric c <;> rfl

theorem coerceCell_idem (c : Cell) : coerceCell (coerceCell c) = coerceCell c := by
  cases h : toNumeric c with
  | none =>
      have hc : coerceCell c = .na := by unfold coerceCell; rw [h]
      rw [hc]
      rfl
  | some q =>
      have hc : coerceCell c = .num q := by unfold coerceCell; rw [h]
      rw [hc]
      rfl

theorem coerceRow_idem (r : Row) : coerceRow (coerceRow r) = coerceRow r := by
  simp [coerceRow, coerceCell_idem]

theorem coerceDF_rows (df : DataFrame) : (coerceDF df).rows = df.rows.map coerceRow := rfl

theorem coerceDF_idem (df : DataFrame) : coerceDF (coerceDF df) = coerceDF df := by
  cases df with
  | mk cols rows =>
      simp only [coerceDF, DataFrame.mk.injEq, true_and, List.map_map]
      exact List.map_congr_left fun r _ => coerceRow_idem r

theorem emitClean_eq (df : DataFrame) :
    emitClean df = (df.rows.filter survivingB).map coerceRow := by
  have hpred : ∀ r : Row,
      (!(isNa (coerceRow r).x || isNa (coerceRow r).y || isNa (coerceRow r).z)) =
        survivingB r := by
    intro r
    simp only [coerceRow, survivingB, isNa_coerceCell]
    cases (toNumeric r.x).isSome <;> cases (toNumeric r.y).isSome <;>
      cases (toNumeric r.z).isSome <;> rfl
  calc emitClean df
      = (df.rows.map coerceRow).filter
          (fun r => !(isNa r.x || isNa r.y || isNa r.z)) := rfl
    _ = (df.rows.filter
          ((fun r => !(isNa r.x || isNa r.y || isNa r.z)) ∘ coerceRow)).map coerceRow :=
        List.filter_map coerceRow df.rows
    _ = (df.rows.filter survivingB).map coerceRow := by
        congr 1
        exact List.filter_congr fun r _ => hpred r

theorem writeJoints_of_all_some :
    ∀ rs : List Row, (∀ r ∈ rs, (pyIntCell r.node_id).isSome = true) →
      writeJoints rs = (jointBody rs, true) := by
  intro rs
  induction rs with
  | nil => intro _; rfl
  | cons r rs ih =>
      intro h
      obtain ⟨i, hi⟩ := Option.isSome_iff_exists.mp (h r (List.mem_cons_self r rs))
      have hrest := ih fun r' hr' => h r' (List.mem_cons_of_mem r hr')
      simp only [writeJoints, hi, hrest]
      simp only [jointBody, List.filterMap_cons, lineOfRow, hi, Option.map_some',
        List.foldr_cons]

theorem writeJoints_of_bad :
    ∀ rs : List Row, (∃ r ∈ rs, pyIntCell r.node_id = none) →
      writeJoints rs =
        (jointBody (rs.takeWhile (fun r => (pyIntCell r.node_id).isSome)), false) := by
  intro rs
  induction rs with
  | nil => rintro ⟨r, hr, -⟩; simp at hr
  | cons r rs ih =>
      rintro ⟨r0, hr0, hbad⟩
      cases hi : pyIntCell r.node_id with
      | none =>
          simp only [writeJoints, hi, List.takeWhile_cons, Option.isSome_none,
            Bool.false_eq_true, if_false]
          rfl
      | some i =>
          have hr0' : r0 ∈ rs := by
            rcases List.mem_cons.mp hr0 with rfl | h
            · rw [hi] at hbad; cases hbad
            · exact h
          have hrest := ih ⟨r0, hr0', hbad⟩
          simp only [writeJoints, hi, hrest, List.takeWhile_cons, Option.isSome_some,
            if_true]
          simp only [jointBody, List.filterMap_cons, lineOfRow, hi, Option.map_some',
        List.foldr_cons]

/-! ## Validator theorems -/

theorem cleanRows_eq (df : DataFrame) : cleanRows df = df.rows.filter rowComplete := rfl

/-- Two distinct members force length at least two. -/
theorem two_le_length_of_mem_ne {α : Type} {l : List α} {a b : α}
    (ha : a ∈ l) (hb : b ∈ l) (hne : a ≠ b) : 2 ≤ l.length := by
  cases l with
  | nil => simp at ha
  | cons x xs =>
      rcases List.mem_cons.mp ha with rfl | ha'
      · rcases List.mem_cons.mp hb with rfl | hb'
        · exact absurd rfl hne
        · have := List.length_pos_of_mem hb'
          simp only [List.length_cons]
          omega
      · have := List.length_pos_of_mem ha'
        simp only [List.length_cons]
        omega

/-- C7. Missing-column short-circuit: when a required column is absent,
`validate_node_data` returns the `missingColumns` outcome (the immediate
`return False` of lines 81–85) listing exactly the missing required names
and the names actually present; no later check's data exists in this
outcome, and the returned flag is `False`. -/
theorem C7_missing_column_short_circuit (df : DataFrame)
    (hmiss : ∃ c ∈ required_columns, c ∉ df.columns) :
    validate_node_data df =
      .missingColumns (required_columns.filter (fun c => decide (c ∉ df.columns)))
        df.columns ∧
    passedOf (validate_node_data df) = false ∧
    ∀ c : String,
      c ∈ required_columns.filter (fun c => decide (c ∉ df.columns)) ↔
        (c ∈ required_columns ∧ c ∉ df.columns) := by
  obtain ⟨c0, hc0, hnc0⟩ := hmiss
  have hne : required_columns.filter (fun c => decide (c ∉ df.columns)) ≠ [] :=
    List.ne_nil_of_mem (List.mem_filter.mpr ⟨hc0, by simpa using hnc0⟩)
  have hval : validate_node_data df =
      .missingColumns (required_columns.filter (fun c => decide (c ∉ df.columns)))
        df.columns := by
    simp only [validate_node_data]
    rw [if_pos hne]
  refine ⟨hval, by rw [hval]; rfl, fun c => ?_⟩
  simp [List.mem_filter]

/-- Concrete input for the C7 witness: the `z` column is absent. -/
def dfMissingZ : DataFrame :=
  ⟨["node_id", "x", "y"], [⟨.num 1, .num 0, .num 0, .na⟩]⟩

theorem C7_missing_column_short_circuit_witness :
    (∃ c ∈ required_columns, c ∉ dfMissingZ.columns) ∧
    validate_node_data dfMissingZ =
      .missingColumns
        (required_columns.filter (fun c => decide (c ∉ dfMissingZ.columns)))
        dfMissingZ.columns ∧
    validate_node_data dfMissingZ = .missingColumns ["z"] ["node_id", "x", "y"] :=
  ⟨by decide, (C7_missing_column_short_circuit dfMissingZ (by decide)).1, by decide⟩

/-- C6. Missing-value scan: with all required columns present and at least
one incomplete row, `validate_node_data` runs checks 2–5, bases checks 3–5
on the clean subset only (every flagged row is complete, and no incomplete
row belongs to the clean subset), and the overall verdict is `False`. -/
theorem C6_missing_value_scan (df : DataFrame)
    (hcols : ∀ c ∈ required_columns, c ∈ df.columns)
    (hbad : ∃ r ∈ df.rows, rowComplete r = false) :
    validate_node_data df =
      .report (df.rows.length - (cleanRows df).length) (dupIdCheck (cleanRows df))
        (dupCoordCheck (cleanRows df)) (nonNumericCheck (cleanRows df)) false ∧
    0 < df.rows.length - (cleanRows df).length ∧
    (∀ r ∈ df.rows, rowComplete r = false → r ∉ cleanRows df) ∧
    (∀ r ∈ cleanRows df, rowComplete r = true) ∧
    (∀ r ∈ dupIdCheck (cleanRows df), rowComplete r = true) ∧
    (∀ r ∈ dupCoordCheck (cleanRows df), rowComplete r = true) := by
  have hmissnil : required_columns.filter (fun c => decide (c ∉ df.columns)) = [] := by
    rw [List.filter_eq_nil_iff]
    intro c hc
    simpa using hcols c hc
  have hlt : (cleanRows df).length < df.rows.length := by
    rw [cleanRows_eq]
    refine List.length_filter_lt_length_iff_exists.mpr ?_
    obtain ⟨r, hr, hb⟩ := hbad
    exact ⟨r, hr, by simp [hb]⟩
  have h0 : decide (df.rows.length - (cleanRows df).length = 0) = false :=
    decide_eq_false (by omega)
  refine ⟨?_, by omega, ?_, ?_, ?_, ?_⟩
  · simp only [validate_node_data]
    rw [if_neg (not_ne_iff.mpr hmissnil)]
    rw [h0]
    simp
  · intro r _ hfalse hmem
    rw [cleanRows_eq] at hmem
    exact absurd (List.mem_filter.mp hmem).2 (by simp [hfalse])
  · intro r hr
    rw [cleanRows_eq] at hr
    exact (List.mem_filter.mp hr).2
  · intro r hr
    have := List.mem_of_mem_filter hr
    rw [cleanRows_eq] at this
    exact (List.mem_filter.mp this).2
  · intro r hr
    have := List.mem_of_mem_filter hr
    rw [cleanRows_eq] at this
    exact (List.mem_filter.mp this).2

/-- Concrete input for the C6 witness: one complete and one incomplete row. -/
def dfC6 : DataFrame :=
  ⟨["node_id", "x", "y", "z"],
   [⟨.num 1, .num 0, .num 0, .num 0⟩, ⟨.num 2, .na, .num 0, .num 0⟩]⟩

theorem C6_missing_value_scan_witness :
    (∀ c ∈ required_columns, c ∈ dfC6.columns) ∧
    (∃ r ∈ dfC6.rows, rowComplete r = false) ∧
    validate_node_data dfC6 =
      .report (dfC6.rows.length - (cleanRows dfC6).length) (dupIdCheck (cleanRows dfC6))
        (dupCoordCheck (cleanRows dfC6)) (nonNumericCheck (cleanRows dfC6)) false ∧
    validate_node_data dfC6 = .report 1 [] [] [] false :=
  ⟨by decide, by decide, (C6_missing_value_scan dfC6 (by decide) (by decide)).1, by decide⟩

/-! ## C3: the duplicate-coordinate check compares raw stored values -/

/-- Concrete input refuting C3: the two clean rows carry textually different
but numerically equal `x` values (the strings `"5"` and `"5.0"`, as an
object-dtype pandas column stores them) and identical `y`, `z`. -/
def dfC3 : DataFrame :=
  ⟨["node_id", "x", "y", "z"],
   [⟨.num 1, .txt "5", .num 0, .num 0⟩, ⟨.num 2, .txt "5.0", .num 0, .num 0⟩]⟩

/-- C3 counterexample: on `dfC3` the two rows' `x` values are textually
different yet numerically equal (both coerce to 5), and `y`, `z` agree — yet
`duplicated(subset=[x, y, z])` flags nothing (it compares the stored values,
which differ as strings) and the whole validation passes.  The claim "both
rows are flagged as coordinate duplicates and the check fails" is false. -/
theorem C3_raw_value_grouping_counterexample :
    (dfC3.rows.map Row.x ≠ [Cell.txt "5", Cell.txt "5"]) ∧
    Cell.txt "5" ≠ Cell.txt "5.0" ∧
    toNumeric (Cell.txt "5") = some 5 ∧
    toNumeric (Cell.txt "5.0") = some 5 ∧
    (dfC3.rows.map Row.y).Nodup = false ∧
    (dfC3.rows.map Row.z).Nodup = false ∧
    cleanRows dfC3 = dfC3.rows ∧
    dupCoordCheck (cleanRows dfC3) = [] ∧
    passedOf (validate_node_data dfC3) = true := by
  refine ⟨by decide, by decide, by decide, by decide, by decide, by decide, by decide,
    by decide, by decide⟩

/-- C3 amended: the duplicate-coordinate check groups clean rows by the raw
stored `(x, y, z)` cell values (exact equality of stored values, e.g. string
equality in an object column), not by the coerced numeric value.  Any two
distinct clean rows with equal stored triples are both flagged and the
overall verdict is `False`; conversely a flagged row's stored triple occurs
at least twice among the clean rows. -/
theorem C3_raw_value_grouping (df : DataFrame) (r s : Row)
    (hr : r ∈ cleanRows df) (hs : s ∈ cleanRows df) (hne : r ≠ s)
    (heq : coordTriple r = coordTriple s) :
    r ∈ dupCoordCheck (cleanRows df) ∧ s ∈ dupCoordCheck (cleanRows df) ∧
    passedOf (validate_node_data df) = false ∧
    ∀ w ∈ dupCoordCheck (cleanRows df),
      2 ≤ ((cleanRows df).map coordTriple).count (coordTriple w) := by
  have hcount : ∀ w : Row, w ∈ cleanRows df →
      ∀ v : Row, v ∈ cleanRows df → v ≠ w → coordTriple v = coordTriple w →
      2 ≤ ((cleanRows df).map coordTriple).count (coordTriple w) := by
    intro w hw v hv hvw hvweq
    rw [List.count_eq_countP, List.countP_map, List.countP_eq_length_filter]
    have hwmem : w ∈ (cleanRows df).filter
        (fun a => (fun x => x == coordTriple w) (coordTriple a)) :=
      List.mem_filter.mpr ⟨hw, by simp⟩
    have hvmem : v ∈ (cleanRows df).filter
        (fun a => (fun x => x == coordTriple w) (coordTriple a)) :=
      List.mem_filter.mpr ⟨hv, by simp [hvweq]⟩
    exact two_le_length_of_mem_ne hvmem hwmem hvw
  have hrmem : r ∈ dupCoordCheck (cleanRows df) :=
    List.mem_filter.mpr ⟨hr, by
      simpa using hcount r hr s hs (Ne.symm hne) heq.symm⟩
  have hsmem : s ∈ dupCoordCheck (cleanRows df) :=
    List.mem_filter.mpr ⟨hs, by
      simpa using hcount s hs r hr hne heq⟩
  have hdne : dupCoordCheck (cleanRows df) ≠ [] := List.ne_nil_of_mem hrmem
  refine ⟨hrmem, hsmem, ?_, ?_⟩
  · by_cases hm : required_columns.filter (fun c => decide (c ∉ df.columns)) ≠ []
    · simp only [validate_node_data]
      rw [if_pos hm]
      rfl
    · simp only [validate_node_data]
      rw [if_neg hm]
      simp only [passedOf]
      have : (dupCoordCheck (cleanRows df)).isEmpty = false := by
        cases h : dupCoordCheck (cleanRows df) with
        | nil => exact absurd h hdne
        | cons a l => rfl
      rw [this]
      simp
  · intro w hw
    have hwc := List.mem_of_mem_filter hw
    have := (List.mem_filter.mp hw).2
    simpa using this

/-- Concrete input for the C3 amended witness: two rows whose stored
coordinate triples are equal. -/
def dfC3w : DataFrame :=
  ⟨["node_id", "x", "y", "z"],
   [⟨.num 1, .num 0, .num 0, .num 0⟩, ⟨.num 2, .num 0, .num 0, .num 0⟩]⟩

theorem C3_raw_value_grouping_witness :
    ((⟨.num 1, .num 0, .num 0, .num 0⟩ : Row) ∈ cleanRows dfC3w) ∧
    ((⟨.num 2, .num 0, .num 0, .num 0⟩ : Row) ∈ cleanRows dfC3w) ∧
    ((⟨.num 1, .num 0, .num 0, .num 0⟩ : Row) ∈ dupCoordCheck (cleanRows dfC3w) ∧
      (⟨.num 2, .num 0, .num 0, .num 0⟩ : Row) ∈ dupCoordCheck (cleanRows dfC3w) ∧
      passedOf (validate_node_data dfC3w) = false ∧
      ∀ w ∈ dupCoordCheck (cleanRows dfC3w),
        2 ≤ ((cleanRows dfC3w).map coordTriple).count (coordTriple w)) :=
  ⟨by decide, by decide,
    C3_raw_value_grouping dfC3w _ _ (by decide) (by decide) (by decide) (by decide)⟩

/-! ## C5: loader failure categories -/

/-- C5. `read_node_data` distinguishes its failure categories exactly as the
code's branches do: a path that does not resolve gives the not-found message
(line 28, checked first), a resolving path whose extension matches neither
family gives the unsupported-format message (line 43), and a parser failure
is caught (lines 49–51) and reported, with no partial data: an `ok` result
can only be the complete output of one of the two parsers. -/
theorem C5_loader_error_categories (fs : SourceFile) (p : String) :
    (fs.found = false → read_node_data fs p = .notFound) ∧
    (fs.found = true → supportedExt p = false → read_node_data fs p = .unsupported) ∧
    (∀ e : String, fs.found = true →
        (pyEndsWith p ".xlsx" || pyEndsWith p ".xls") = true →
        fs.excel = .error e → read_node_data fs p = .parseError e) ∧
    (∀ e : String, fs.found = true →
        (pyEndsWith p ".xlsx" || pyEndsWith p ".xls") = false →
        pyEndsWith p ".csv" = true →
        fs.csv = .error e → read_node_data fs p = .parseError e) ∧
    (∀ df : DataFrame, read_node_data fs p = .ok df →
        fs.excel = Except.ok df ∨ fs.csv = Except.ok df) := by
  refine ⟨?_, ?_, ?_, ?_, ?_⟩
  · intro h
    simp [read_node_data, h]
  · intro hf hs
    have h12 : (pyEndsWith p ".xlsx" || pyEndsWith p ".xls") = false := by
      revert hs
      simp only [supportedExt]
      cases pyEndsWith p ".xlsx" <;> cases pyEndsWith p ".xls" <;> simp
    have h3 : pyEndsWith p ".csv" = false := by
      revert hs
      simp only [supportedExt]
      cases pyEndsWith p ".csv" <;> simp
    simp [read_node_data, hf, h12, h3]
  · intro e hf hext he
    simp [read_node_data, hf, hext, he]
  · intro e hf hext hcsv he
    simp [read_node_data, hf, hext, hcsv, he]
  · intro df h
    by_cases hf : fs.found = true
    · by_cases hx : (pyEndsWith p ".xlsx" || pyEndsWith p ".xls") = true
      · cases hex : fs.excel with
        | ok d =>
            simp [read_node_data, hf, hx, hex] at h
            left
            rw [h]
        | error e => simp [read_node_data, hf, hx, hex] at h
      · rw [Bool.not_eq_true] at hx
        by_cases hc : pyEndsWith p ".csv" = true
        · cases hcs : fs.csv with
          | ok d =>
              simp [read_node_data, hf, hx, hc, hcs] at h
              right
              rw [h]
          | error e => simp [read_node_data, hf, hx, hc, hcs] at h
        · rw [Bool.not_eq_true] at hc
          simp [read_node_data, hf, hx, hc] at h
    · rw [Bool.not_eq_true] at hf
      simp [read_node_data, hf] at h

theorem C5_loader_error_categories_witness :
    read_node_data ⟨false, .error "boom", .error "boom"⟩ "nodes.csv" = .notFound ∧
    read_node_data ⟨true, .error "boom", .error "boom"⟩ "nodes.txt" = .unsupported ∧
    read_node_data ⟨true, .error "bad excel", .error "boom"⟩ "nodes.xlsx" =
      .parseError "bad excel" ∧
    read_node_data ⟨true, .error "boom", .error "bad csv"⟩ "nodes.csv" =
      .parseError "bad csv" :=
  ⟨(C5_loader_error_categories ⟨false, .error "boom", .error "boom"⟩ "nodes.csv").1 rfl,
   (C5_loader_error_categories ⟨true, .error "boom", .error "boom"⟩ "nodes.txt").2.1 rfl
     (by decide),
   (C5_loader_error_categories ⟨true, .error "bad excel", .error "boom"⟩ "nodes.xlsx").2.2.1
     "bad excel" rfl (by decide) rfl,
   (C5_loader_error_categories ⟨true, .error "boom", .error "bad csv"⟩ "nodes.csv").2.2.2.1
     "bad csv" rfl (by decide) (by decide) rfl⟩

/-! ## Emitter lemmas -/

theorem coerceCell_of_isSome {c : Cell} {q : ℚ} (h : toNumeric c = some q) :
    coerceCell c = .num q := by
  unfold coerceCell
  rw [h]

theorem pyIntCell_intCast (n : ℤ) : pyIntCell (.num (n : ℚ)) = some n := by
  simp [pyIntCell, Rat.num_intCast, Rat.den_intCast, Int.tdiv_one]

theorem emitClean_of_all_surviving (df : DataFrame)
    (hall : ∀ r ∈ df.rows, survivingB r = true) :
    emitClean df = df.rows.map coerceRow := by
  rw [emitClean_eq, List.filter_eq_self.mpr hall]

theorem surviving_of_coercible {r : Row}
    (h : (toNumeric r.x).isSome = true ∧ (toNumeric r.y).isSome = true ∧
      (toNumeric r.z).isSome = true) : survivingB r = true := by
  obtain ⟨hx, hy, hz⟩ := h
  simp [survivingB, hx, hy, hz]

/-- C1. Output format: on a node set with (data-model) integer node ids and
numerically coercible coordinates, `generate_staad_file` succeeds, and the
destination holds exactly the fixed header block, one joint line per node
(a permutation of the input rows, reordered only by the sort), and the
closing `END JOINT COORDINATES` line; each joint line is the plain integer
id and the three coordinates rendered by `fmt6`, which always yields
fixed-point output with exactly six digits after the decimal point and
never a scientific-notation character. -/
theorem C1_emit_exact_format (df : DataFrame) (fn : String)
    (hid : ∀ r ∈ df.rows, ∃ n : ℤ, r.node_id = .num (n : ℚ))
    (hco : ∀ r ∈ df.rows, (toNumeric r.x).isSome = true ∧ (toNumeric r.y).isSome = true ∧
      (toNumeric r.z).isSome = true) :
    (generate_staad_file df fn).success = true ∧
    (generate_staad_file df fn).content =
      headerString ++ jointBody (sortedRows df) ++ "END JOINT COORDINATES\n" ∧
    (sortedRows df).Perm (df.rows.map coerceRow) ∧
    (sortedRows df).length = df.rows.length ∧
    (∀ r ∈ sortedRows df, ∃ (n : ℤ) (qx qy qz : ℚ),
      r.node_id = .num (n : ℚ) ∧ r.x = .num qx ∧ r.y = .num qy ∧ r.z = .num qz ∧
      lineOfRow r =
        some (intRepr n ++ " " ++ fmt6 qx ++ " " ++ fmt6 qy ++ " " ++ fmt6 qz ++ "\n")) ∧
    (∀ q : ℚ, ∃ s t : String, fmt6 q = s ++ "." ++ t ∧ t.length = 6 ∧
      (∀ c ∈ t.data, c.isDigit = true) ∧
      (∀ c ∈ (fmt6 q).data, c.isDigit = true ∨ c = '.' ∨ c = '-')) := by
  have hall : ∀ r ∈ df.rows, survivingB r = true := fun r hr =>
    surviving_of_coercible (hco r hr)
  have hperm : (sortedRows df).Perm (df.rows.map coerceRow) := by
    have h : (sortedRows df).Perm (emitClean df) :=
      List.perm_insertionSort rowLE (emitClean df)
    rwa [emitClean_of_all_surviving df hall] at h
  have hmem : ∀ r ∈ sortedRows df, ∃ r0 ∈ df.rows, r = coerceRow r0 := by
    intro r hr
    have : r ∈ df.rows.map coerceRow := hperm.mem_iff.mp hr
    obtain ⟨r0, hr0, heq⟩ := List.mem_map.mp this
    exact ⟨r0, hr0, heq.symm⟩
  have hrowfacts : ∀ r ∈ sortedRows df, ∃ (n : ℤ) (qx qy qz : ℚ),
      r.node_id = .num (n : ℚ) ∧ r.x = .num qx ∧ r.y = .num qy ∧ r.z = .num qz ∧
      lineOfRow r =
        some (intRepr n ++ " " ++ fmt6 qx ++ " " ++ fmt6 qy ++ " " ++ fmt6 qz ++ "\n") := by
    intro r hr
    obtain ⟨r0, hr0, rfl⟩ := hmem r hr
    obtain ⟨n, hn⟩ := hid r0 hr0
    obtain ⟨hx, hy, hz⟩ := hco r0 hr0
    obtain ⟨qx, hqx⟩ := Option.isSome_iff_exists.mp hx
    obtain ⟨qy, hqy⟩ := Option.isSome_iff_exists.mp hy
    obtain ⟨qz, hqz⟩ := Option.isSome_iff_exists.mp hz
    have hnid : (coerceRow r0).node_id = .num (n : ℚ) := hn
    have hxx : (coerceRow r0).x = .num qx := coerceCell_of_isSome hqx
    have hyy : (coerceRow r0).y = .num qy := coerceCell_of_isSome hqy
    have hzz : (coerceRow r0).z = .num qz := coerceCell_of_isSome hqz
    refine ⟨n, qx, qy, qz, hnid, hxx, hyy, hzz, ?_⟩
    have hpy : pyIntCell (coerceRow r0).node_id = some n := by
      rw [hnid]
      exact pyIntCell_intCast n
    simp only [lineOfRow, hpy, Option.map_some']
    simp only [lineOf, hxx, hyy, hzz, cellValQ]
  have hsome : ∀ r ∈ sortedRows df, (pyIntCell r.node_id).isSome = true := by
    intro r hr
    obtain ⟨n, qx, qy, qz, hnid, -, -, -, -⟩ := hrowfacts r hr
    rw [hnid, pyIntCell_intCast n]
    rfl
  have hwj := writeJoints_of_all_some _ hsome
  refine ⟨by simp [generate_staad_file, hwj], by simp [generate_staad_file, hwj],
    hperm, by rw [hperm.length_eq, List.length_map], hrowfacts, fmt6_shape⟩

/-- Concrete input for the C1 witness: the spec's round-trip example
`{1:(0,0,0), 2:(5,0,0)}`, deliberately supplied in reversed row order. -/
def dfEx : DataFrame :=
  ⟨["node_id", "x", "y", "z"],
   [⟨.num 2, .num 5, .num 0, .num 0⟩, ⟨.num 1, .num 0, .num 0, .num 0⟩]⟩

theorem C1_emit_exact_format_witness :
    (∀ r ∈ dfEx.rows, ∃ n : ℤ, r.node_id = .num (n : ℚ)) ∧
    (∀ r ∈ dfEx.rows, (toNumeric r.x).isSome = true ∧ (toNumeric r.y).isSome = true ∧
      (toNumeric r.z).isSome = true) ∧
    (generate_staad_file dfEx "model.std").success = true ∧
    (generate_staad_file dfEx "model.std").content =
      "STAAD SPACE\nSTART JOB INFORMATION\nENGINEER DATE 01-Jan-2025\nEND JOB INFORMATION\nUNIT METER KN\n\nJOINT COORDINATES\n1 0.000000 0.000000 0.000000\n2 5.000000 0.000000 0.000000\nEND JOINT COORDINATES\n" := by
  have h1 : ∀ r ∈ dfEx.rows, ∃ n : ℤ, r.node_id = .num (n : ℚ) := by
    intro r hr
    fin_cases hr
    · exact ⟨2, congrArg Cell.num (by norm_num)⟩
    · exact ⟨1, congrArg Cell.num (by norm_num)⟩
  exact ⟨h1, by decide, (C1_emit_exact_format dfEx "model.std" h1 (by decide)).1, by decide⟩

/-! ## C2: ordering of the emitted joint lines -/

/-- The `node_id` cells of the joint lines, in the order they are written
(the write loop of lines 197–204 walks `df_sorted` in order). -/
def emittedIdCells (df : DataFrame) : List Cell := (sortedRows df).map Row.node_id

/-- The numeric value of a numeric cell. -/
def numOf : Cell → Option ℚ
  | .num q => some q
  | _ => none

/-- The numeric `node_id` keys of the joint lines, in written order. -/
def emittedQIds (df : DataFrame) : List ℚ := (emittedIdCells df).filterMap numOf

/-- Concrete input refuting C2 as stated: two rows share `node_id = 1` (with
different coordinates), the emitter happily writes both, and the resulting
id sequence `[1, 1]` is not *strictly* ascending. -/
def dfDupId : DataFrame :=
  ⟨["node_id", "x", "y", "z"],
   [⟨.num 1, .num 0, .num 0, .num 0⟩, ⟨.num 1, .num 5, .num 0, .num 0⟩]⟩

theorem C2_strictly_ascending_counterexample :
    (generate_staad_file dfDupId "model.std").success = true ∧
    emittedIdCells dfDupId = [Cell.num 1, Cell.num 1] ∧
    ¬ List.Chain' (fun a b : Cell => cellLT a b = true) (emittedIdCells dfDupId) ∧
    (generate_staad_file dfDupId "model.std").content =
      headerString ++
        "1 0.000000 0.000000 0.000000\n1 5.000000 0.000000 0.000000\nEND JOINT COORDINATES\n" := by
  refine ⟨by decide, by decide, ?_, by decide⟩
  intro h
  rw [show emittedIdCells dfDupId = [Cell.num 1, Cell.num 1] by decide,
    List.chain'_cons] at h
  exact absurd h.1 (by decide)

theorem numOf_length_and_pairwise :
    ∀ l : List Cell, (∀ c ∈ l, ∃ q : ℚ, c = .num q) →
      (l.filterMap numOf).length = l.length ∧
      (List.Pairwise (fun a b => cellLE a b = true) l →
        List.Pairwise (· ≤ ·) (l.filterMap numOf)) := by
  intro l
  induction l with
  | nil => intro _; simp
  | cons c l ih =>
      intro h
      obtain ⟨q, rfl⟩ := h c (List.mem_cons_self c l)
      have ih' := ih fun c hc => h c (List.mem_cons_of_mem _ hc)
      have hfm : (Cell.num q :: l).filterMap numOf = q :: l.filterMap numOf := by
        simp [List.filterMap_cons, numOf]
      constructor
      · rw [hfm]
        simp [ih'.1]
      · intro hp
        rw [List.pairwise_cons] at hp
        rw [hfm, List.pairwise_cons]
        refine ⟨?_, ih'.2 hp.2⟩
        intro b hb
        obtain ⟨cb, hcb, hbeq⟩ := List.mem_filterMap.mp hb
        obtain ⟨qb, rfl⟩ := h cb (List.mem_cons_of_mem _ hcb)
        have hle := hp.1 (Cell.num qb) hcb
        simp only [numOf, Option.some.injEq] at hbeq
        subst hbeq
        simpa [cellLE] using hle

theorem pairwise_lt_of_le_nodup :
    ∀ l : List ℚ, List.Pairwise (· ≤ ·) l → l.Nodup → List.Pairwise (· < ·) l := by
  intro l
  induction l with
  | nil => intro _ _; exact List.Pairwise.nil
  | cons a l ih =>
      intro hle hnd
      rw [List.pairwise_cons] at hle ⊢
      rw [List.nodup_cons] at hnd
      refine ⟨fun b hb => lt_of_le_of_ne (hle.1 b hb) ?_, ih hle.2 hnd.2⟩
      intro he
      exact hnd.1 (he ▸ hb)

/-- C2 amended: for a node set with numeric `node_id` values, every joint
line's id is numeric and the id sequence of the written lines is
non-decreasing in numeric order; it is strictly ascending whenever the ids
are pairwise distinct (which is what the validator's duplicate-id check
guarantees).  As stated the claim is false: with duplicate ids the emitter
writes equal consecutive ids (see the counterexample). -/
theorem C2_sorted_nondecreasing (df : DataFrame)
    (hid : ∀ r ∈ df.rows, ∃ q : ℚ, r.node_id = .num q) :
    (emittedQIds df).length = (emittedIdCells df).length ∧
    List.Chain' (· ≤ ·) (emittedQIds df) ∧
    ((emittedQIds df).Nodup → List.Chain' (· < ·) (emittedQIds df)) := by
  have hnum : ∀ c ∈ emittedIdCells df, ∃ q : ℚ, c = .num q := by
    intro c hc
    obtain ⟨r, hr, rfl⟩ := List.mem_map.mp hc
    have hr' : r ∈ emitClean df := (List.mem_insertionSort rowLE).mp hr
    rw [emitClean_eq] at hr'
    obtain ⟨r0, hr0, rfl⟩ := List.mem_map.mp hr'
    exact hid r0 (List.mem_of_mem_filter hr0)
  have hsorted : List.Pairwise rowLE (sortedRows df) :=
    List.sorted_insertionSort rowLE (emitClean df)
  have hpw : List.Pairwise (fun a b => cellLE a b = true) (emittedIdCells df) :=
    List.Pairwise.map Row.node_id (fun _ _ h => h) hsorted
  have hspec := numOf_length_and_pairwise (emittedIdCells df) hnum
  have hple : List.Pairwise (· ≤ ·) (emittedQIds df) := hspec.2 hpw
  exact ⟨hspec.1, hple.chain',
    fun hnd => (pairwise_lt_of_le_nodup _ hple hnd).chain'⟩

theorem C2_sorted_nondecreasing_witness :
    (∀ r ∈ dfEx.rows, ∃ q : ℚ, r.node_id = .num q) ∧
    ((emittedQIds dfEx).length = (emittedIdCells dfEx).length ∧
      List.Chain' (· ≤ ·) (emittedQIds dfEx) ∧
      ((emittedQIds dfEx).Nodup → List.Chain' (· < ·) (emittedQIds dfEx))) ∧
    emittedQIds dfEx = [1, 2] := by
  have h1 : ∀ r ∈ dfEx.rows, ∃ q : ℚ, r.node_id = .num q := by
    intro r hr
    fin_cases hr
    · exact ⟨2, rfl⟩
    · exact ⟨1, rfl⟩
  exact ⟨h1, C2_sorted_nondecreasing dfEx h1, by decide⟩

/-! ## C4, C8, C9, C10: emitter failure and robustness -/

/-- Concrete input refuting C4: the `node_id` column is an object (string)
column — as `read_csv` produces whenever any id fails numeric parsing — and
one id (`"abc"`) is not convertible by `int`.  The write loop aborts midway,
leaving a partial file at the destination. -/
def dfBadId : DataFrame :=
  ⟨["node_id", "x", "y", "z"],
   [⟨.txt "2", .num 5, .num 0, .num 0⟩, ⟨.txt "abc", .num 7, .num 0, .num 0⟩,
    ⟨.txt "1", .num 0, .num 0, .num 0⟩]⟩

/-- C4 counterexample: a failed `generate_staad_file` call leaves the header
and the already-written joint lines at the destination — a nonempty,
plausible-looking partial file — contradicting "no partial file is left in
an ambiguous state".  (The code writes directly to the destination with no
temp file, atomic move, truncation or deletion on failure.) -/
theorem C4_partial_file_counterexample :
    (generate_staad_file dfBadId "model.std").success = false ∧
    (generate_staad_file dfBadId "model.std").content =
      headerString ++ "1 0.000000 0.000000 0.000000\n2 5.000000 0.000000 0.000000\n" ∧
    (generate_staad_file dfBadId "model.std").content ≠ "" ∧
    (generate_staad_file dfBadId "model.std").writtenCount = none :=
  ⟨by decide, by decide, by decide, by decide⟩

/-- C4 amended: when `generate_staad_file` fails it does report the failure
(it returns `False` and reports no written count), but the destination may
retain a partial file: its content is the fixed header followed by whatever
joint lines were written before the failure. -/
theorem C4_failure_reporting (df : DataFrame) (fn : String)
    (hfail : (generate_staad_file df fn).success = false) :
    (generate_staad_file df fn).writtenCount = none ∧
    ∃ rest : String, (generate_staad_file df fn).content = headerString ++ rest := by
  by_cases hb : (writeJoints (sortedRows df)).2 = true
  · exfalso
    have h2 : (generate_staad_file df fn).success = true := by
      simp [generate_staad_file, hb]
    rw [hfail] at h2
    exact Bool.false_ne_true h2
  · rw [Bool.not_eq_true] at hb
    exact ⟨by simp [generate_staad_file, hb],
      ⟨(writeJoints (sortedRows df)).1, by simp [generate_staad_file, hb]⟩⟩

theorem C4_failure_reporting_witness :
    (generate_staad_file dfBadId "out.std").success = false ∧
    ((generate_staad_file dfBadId "out.std").writtenCount = none ∧
      ∃ rest : String,
        (generate_staad_file dfBadId "out.std").content = headerString ++ rest) :=
  ⟨by decide, C4_failure_reporting dfBadId "out.std" (by decide)⟩

/-- C8. The emitter never fails on bad *coordinate* data: with (data-model)
numeric node ids, it re-coerces `x`, `y`, `z`, silently drops every row
with a coordinate that still fails coercion, writes exactly the surviving
rows (a permutation of them, ordered by the sort), succeeds, and reports
the number of surviving rows as the written count. -/
theorem C8_emit_drops_bad_rows (df : DataFrame) (fn : String)
    (hid : ∀ r ∈ df.rows, ∃ q : ℚ, r.node_id = .num q) :
    (generate_staad_file df fn).success = true ∧
    (generate_staad_file df fn).writtenCount =
      some ((df.rows.filter survivingB).length) ∧
    (sortedRows df).Perm ((df.rows.filter survivingB).map coerceRow) ∧
    (generate_staad_file df fn).content =
      headerString ++ jointBody (sortedRows df) ++ "END JOINT COORDINATES\n" := by
  have hperm : (sortedRows df).Perm ((df.rows.filter survivingB).map coerceRow) := by
    have h : (sortedRows df).Perm (emitClean df) :=
      List.perm_insertionSort rowLE (emitClean df)
    rwa [emitClean_eq] at h
  have hsome : ∀ r ∈ sortedRows df, (pyIntCell r.node_id).isSome = true := by
    intro r hr
    have hm : r ∈ (df.rows.filter survivingB).map coerceRow := hperm.mem_iff.mp hr
    obtain ⟨r0, hr0, rfl⟩ := List.mem_map.mp hm
    obtain ⟨q, hq⟩ := hid r0 (List.mem_of_mem_filter hr0)
    have : (coerceRow r0).node_id = .num q := hq
    rw [this]
    rfl
  have hwj := writeJoints_of_all_some _ hsome
  have hlen : (sortedRows df).length = (df.rows.filter survivingB).length := by
    rw [hperm.length_eq, List.length_map]
  exact ⟨by simp [generate_staad_file, hwj], by simp [generate_staad_file, hwj, hlen],
    hperm, by simp [generate_staad_file, hwj]⟩

/-- Concrete input for the C8 witness: the spec's example, a row with
`x = "abc"`. -/
def dfAbc : DataFrame :=
  ⟨["node_id", "x", "y", "z"],
   [⟨.num 1, .txt "abc", .num 0, .num 0⟩, ⟨.num 2, .num 5, .num 0, .num 0⟩]⟩

theorem C8_emit_drops_bad_rows_witness :
    (∀ r ∈ dfAbc.rows, ∃ q : ℚ, r.node_id = .num q) ∧
    ((generate_staad_file dfAbc "model.std").success = true ∧
      (generate_staad_file dfAbc "model.std").writtenCount =
        some ((dfAbc.rows.filter survivingB).length) ∧
      (sortedRows dfAbc).Perm ((dfAbc.rows.filter survivingB).map coerceRow) ∧
      (generate_staad_file dfAbc "model.std").content =
        headerString ++ jointBody (sortedRows dfAbc) ++ "END JOINT COORDINATES\n") ∧
    (generate_staad_file dfAbc "model.std").writtenCount = some 1 ∧
    (generate_staad_file dfAbc "model.std").content =
      headerString ++ "2 5.000000 0.000000 0.000000\nEND JOINT COORDINATES\n" := by
  have h1 : ∀ r ∈ dfAbc.rows, ∃ q : ℚ, r.node_id = .num q := by
    intro r hr
    fin_cases hr
    · exact ⟨1, rfl⟩
    · exact ⟨2, rfl⟩
  exact ⟨h1, C8_emit_drops_bad_rows dfAbc "model.std" h1, by decide, by decide⟩

/-- C9. Determinism / idempotence at the byte level.  In the Python code the
first `generate_staad_file` call mutates the caller's DataFrame in place
(lines 173–175 assign the coerced columns back into `df`), so a second call
on "the same" node set actually receives the coerced frame; writing to a
different destination changes nothing.  Both calls produce byte-identical
content (the output depends only on the row data, never on the destination
name, a date, or any ambient state). -/
theorem C9_emit_deterministic (df : DataFrame) (f1 f2 : String) :
    (generate_staad_file df f1).content = (generate_staad_file (coerceDF df) f2).content ∧
    (generate_staad_file df f1).success = (generate_staad_file (coerceDF df) f2).success ∧
    (generate_staad_file df f1).writtenCount =
      (generate_staad_file (coerceDF df) f2).writtenCount := by
  have hclean : emitClean (coerceDF df) = emitClean df := by
    unfold emitClean
    rw [coerceDF_idem]
  have hsorted : sortedRows (coerceDF df) = sortedRows df := by
    unfold sortedRows
    rw [hclean]
  refine ⟨?_, ?_, ?_⟩ <;> simp [generate_staad_file, hsorted]

/-- C10.  When every coordinate coerces but some `node_id` cannot be
converted by `int`, the emitter does not drop that row: no row is dropped at
all (the cleaned, sorted frame has one row per input row), the conversion
failure aborts the write loop, the function returns failure, and the
destination is left holding the header plus exactly the lines of the sorted
rows that precede the first failing row.  The hypothesis `hid` records that
the id column is homogeneous (all strings), which is what pandas produces
when some id fails numeric parsing — on a mixed column `sort_values` would
itself raise. -/
theorem C10_bad_node_id_aborts (df : DataFrame) (fn : String)
    (_hid : ∀ r ∈ df.rows, ∃ s : String, r.node_id = .txt s)
    (hco : ∀ r ∈ df.rows, (toNumeric r.x).isSome = true ∧ (toNumeric r.y).isSome = true ∧
      (toNumeric r.z).isSome = true)
    (hbad : ∃ r ∈ df.rows, pyIntCell r.node_id = none) :
    (generate_staad_file df fn).success = false ∧
    (generate_staad_file df fn).writtenCount = none ∧
    (sortedRows df).length = df.rows.length ∧
    (generate_staad_file df fn).content =
      headerString ++
        jointBody ((sortedRows df).takeWhile (fun r => (pyIntCell r.node_id).isSome)) := by
  have hall : ∀ r ∈ df.rows, survivingB r = true := fun r hr =>
    surviving_of_coercible (hco r hr)
  have hperm : (sortedRows df).Perm (df.rows.map coerceRow) := by
    have h : (sortedRows df).Perm (emitClean df) :=
      List.perm_insertionSort rowLE (emitClean df)
    rwa [emitClean_of_all_surviving df hall] at h
  have hbad' : ∃ r ∈ sortedRows df, pyIntCell r.node_id = none := by
    obtain ⟨r0, hr0, hb⟩ := hbad
    refine ⟨coerceRow r0, hperm.mem_iff.mpr (List.mem_map_of_mem coerceRow hr0), ?_⟩
    have : (coerceRow r0).node_id = r0.node_id := rfl
    rw [this, hb]
  have hwj := writeJoints_of_bad _ hbad'
  exact ⟨by simp [generate_staad_file, hwj], by simp [generate_staad_file, hwj],
    by rw [hperm.length_eq, List.length_map], by simp [generate_staad_file, hwj]⟩

theorem C10_bad_node_id_aborts_witness :
    (∀ r ∈ dfBadId.rows, ∃ s : String, r.node_id = .txt s) ∧
    (∃ r ∈ dfBadId.rows, pyIntCell r.node_id = none) ∧
    ((generate_staad_file dfBadId "model.std").success = false ∧
      (generate_staad_file dfBadId "model.std").writtenCount = none ∧
      (sortedRows dfBadId).length = dfBadId.rows.length ∧
      (generate_staad_file dfBadId "model.std").content =
        headerString ++
          jointBody
            ((sortedRows dfBadId).takeWhile (fun r => (pyIntCell r.node_id).isSome))) ∧
    jointBody ((sortedRows dfBadId).takeWhile (fun r => (pyIntCell r.node_id).isSome)) =
      "1 0.000000 0.000000 0.000000\n2 5.000000 0.000000 0.000000\n" := by
  have h1 : ∀ r ∈ dfBadId.rows, ∃ s : String, r.node_id = .txt s := by
    intro r hr
    fin_cases hr
    · exact ⟨"2", rfl⟩
    · exact ⟨"abc", rfl⟩
    · exact ⟨"1", rfl⟩
  exact ⟨h1, by decide,
    C10_bad_node_id_aborts dfBadId "model.std" h1 (by decide) (by decide), by decide⟩
